import Mathlib

/-!
Verification of the GPIO hardware-access layer (rppal fork).

Shallow embedding of `src/src/gpio.rs` and `src/src/gpio/pin.rs`.
Register memory is modelled as a word-offset-indexed map `Nat → Nat`;
every value the embedded code writes is produced by `u32` bit operations
(`&`, `|`, `<<`) whose results are below `2 ^ 32` by construction, so no
wrap-around modelling is needed.  Hardware-visible actions (register
reads/writes, settle delays, interrupt arm/disarm, async-worker stops)
are recorded in an event trace.  The modules `mem`, `interrupt`, `epoll`
and `ioctl` are not part of the sources; where a claim depends on them
they are modelled from the specification (marked `Modelled from the
spec:`) or abstracted by a universally quantified parameter.
-/

namespace Rppal

/-- Pin modes (`enum Mode`, src/src/gpio.rs lines 151-161). -/
inductive Mode where
  | Input
  | Output
  | Alt5
  | Alt4
  | Alt0
  | Alt1
  | Alt2
  | Alt3
deriving DecidableEq, Repr

/-- Discriminant of `Mode` as written to the GPFSEL field (`Input = 0b000` … `Alt3 = 0b111`). -/
def Mode.bits : Mode → Nat
  | .Input => 0
  | .Output => 1
  | .Alt5 => 2
  | .Alt4 => 3
  | .Alt0 => 4
  | .Alt1 => 5
  | .Alt2 => 6
  | .Alt3 => 7

/-- Pin logic levels (`enum Level`). -/
inductive Level where
  | Low
  | High
deriving DecidableEq, Repr

/-- Built-in pull-up/pull-down resistor states (`enum PullUpDown`). -/
inductive PullUpDown where
  | Off
  | PullDown
  | PullUp
deriving DecidableEq, Repr

/-- Discriminant of `PullUpDown` (`Off = 0b00`, `PullDown = 0b01`, `PullUp = 0b10`). -/
def PullUpDown.bits : PullUpDown → Nat
  | .Off => 0
  | .PullDown => 1
  | .PullUp => 2

/-- Interrupt trigger conditions (`enum Trigger`). -/
inductive Trigger where
  | Disabled
  | RisingEdge
  | FallingEdge
  | Both
deriving DecidableEq, Repr

/-- Errors of the GPIO module (`enum Error`, src/src/gpio.rs lines 99-145).
The `Io` payload (an `io::Error`) is irrelevant to the claims and dropped. -/
inductive Error where
  | InvalidPin (pin : Nat)
  | UnknownMode (mode : Nat)
  | UnknownSoC
  | PermissionDenied
  | InstanceExists
  | Io
  | ThreadPanic
deriving DecidableEq, Repr

/-- Maximum GPIO pins on the BCM2835 (`GPIO_MAX_PINS = 54`). -/
def GPIO_MAX_PINS : Nat := 54

/-- Register offsets in 32-bit units (src/src/gpio.rs lines 89-94). -/
def GPIO_OFFSET_GPFSEL : Nat := 0

/-- Offset of the set registers. -/
def GPIO_OFFSET_GPSET : Nat := 7

/-- Offset of the clear registers. -/
def GPIO_OFFSET_GPCLR : Nat := 10

/-- Offset of the level registers. -/
def GPIO_OFFSET_GPLEV : Nat := 13

/-- Offset of the pull-up/down control register. -/
def GPIO_OFFSET_GPPUD : Nat := 37

/-- Offset of the pull-up/down clock registers. -/
def GPIO_OFFSET_GPPUDCLK : Nat := 38

/-- Register page contents: 32-bit word value at each word offset. -/
def Regs : Type := Nat → Nat

/-- Hardware-visible events recorded by the embedded operations, in program order. -/
inductive Event where
  | readReg (offset value : Nat)
  | writeReg (offset value : Nat)
  | sleepNs (ns : Nat)
  | stopAsync (pin : Nat)
  | armSync (pin : Nat) (t : Trigger)
  | disarmSync (pin : Nat)
  | armAsync (pin : Nat) (t : Trigger)
deriving DecidableEq, Repr

/-- Volatile register read (`GpioMem::read`): returns the word at `offset`. -/
def memRead (regs : Regs) (offset : Nat) : Nat := regs offset

/-- Volatile register write (`GpioMem::write`): stores `value` at `offset`. -/
def memWrite (regs : Regs) (offset value : Nat) : Regs :=
  fun o => if o = offset then value else regs o

/-- Pull-up/down configuration sequence shared verbatim by
`Gpio::set_pullupdown` (src/src/gpio.rs lines 372-400) and
`Pin::set_pullupdown` (src/src/gpio/pin.rs lines 57-85): write the 2-bit
control code into GPPUD keeping the other bits (`(reg_value & !0b11) |
((pud as u32) & 0b11)`; `!0b11` in `u32` is `2 ^ 32 - 4`), sleep 20000 ns,
clock the pin bit (`1 << (pin % 32)`) into `GPPUDCLK + pin / 32`, sleep
20000 ns, then clear the control code and write `0 << (pin % 32)` to the
clock register. -/
def pudSequence (pin : Nat) (pud : PullUpDown) (regs : Regs) : Regs × List Event :=
  let v0 := memRead regs GPIO_OFFSET_GPPUD
  let w1 := (v0 &&& (2 ^ 32 - 4)) ||| (pud.bits &&& 3)
  let regs1 := memWrite regs GPIO_OFFSET_GPPUD w1
  let clkAddr := GPIO_OFFSET_GPPUDCLK + pin / 32
  let clkVal := 1 <<< (pin % 32)
  let regs2 := memWrite regs1 clkAddr clkVal
  let v1 := memRead regs2 GPIO_OFFSET_GPPUD
  let w2 := v1 &&& (2 ^ 32 - 4)
  let regs3 := memWrite regs2 GPIO_OFFSET_GPPUD w2
  let regs4 := memWrite regs3 clkAddr (0 <<< (pin % 32))
  (regs4,
    [Event.readReg GPIO_OFFSET_GPPUD v0,
     Event.writeReg GPIO_OFFSET_GPPUD w1,
     Event.sleepNs 20000,
     Event.writeReg clkAddr clkVal,
     Event.sleepNs 20000,
     Event.readReg GPIO_OFFSET_GPPUD v1,
     Event.writeReg GPIO_OFFSET_GPPUD w2,
     Event.writeReg clkAddr (0 <<< (pin % 32))])

/-- Method `Gpio::set_pullupdown` (src/src/gpio.rs lines 369-401): range
check via `assert_pin!` first, then the shared sequence. -/
def Gpio.setPullupdown (pin : Nat) (pud : PullUpDown) (regs : Regs) :
    Except Error Unit × Regs × List Event :=
  if GPIO_MAX_PINS ≤ pin then (.error (.InvalidPin pin), regs, [])
  else
    let (regs1, tr) := pudSequence pin pud regs
    (.ok (), regs1, tr)

/-- Method `Pin::set_pullupdown` (src/src/gpio/pin.rs lines 56-86): the same
sequence without a range check (a `Pin` is constructed only for valid indices). -/
def Pin.setPullupdown (pin : Nat) (pud : PullUpDown) (regs : Regs) :
    Except Error Unit × Regs × List Event :=
  let (regs1, tr) := pudSequence pin pud regs
  (.ok (), regs1, tr)

/-- Conversion `From<u8> for Mode` (src/src/gpio.rs lines 163-177), embedded
faithfully: the `_ => unreachable!()` arm is modelled as `none`. -/
def modeFromU8 (mode : Nat) : Option Mode :=
  match mode with
  | 0 => some .Input
  | 1 => some .Output
  | 2 => some .Alt5
  | 3 => some .Alt4
  | 4 => some .Alt0
  | 5 => some .Alt1
  | 6 => some .Alt2
  | 7 => some .Alt3
  | _ => none

/-- Total decode of a 3-bit mode field; agrees with `modeFromU8` on every
value the masked field can take (the final branch covers 7, the only
remaining value below 8 after the `& 0b111` mask). -/
def modeOfBits (m : Nat) : Mode :=
  if m = 0 then .Input
  else if m = 1 then .Output
  else if m = 2 then .Alt5
  else if m = 3 then .Alt4
  else if m = 4 then .Alt0
  else if m = 5 then .Alt1
  else if m = 6 then .Alt2
  else .Alt3

/-- Mode field of `pin` as read by `Pin::mode` (src/src/gpio/pin.rs lines
47-53): `(reg_value >> ((pin % 10) * 3)) & 0b111`. -/
def Pin.modeBits (pin : Nat) (regs : Regs) : Nat :=
  (memRead regs (GPIO_OFFSET_GPFSEL + pin / 10) >>> ((pin % 10) * 3)) &&& 7

/-- Method `Pin::mode` with the fallible `u8 → Mode` conversion kept explicit:
`none` models the `unreachable!()` panic. -/
def Pin.modeOpt (pin : Nat) (regs : Regs) : Option Mode :=
  modeFromU8 (Pin.modeBits pin regs)

/-- Method `Pin::mode` as the total function it is in practice (the decoded
field is masked to 3 bits, so the conversion never reaches `unreachable!()`,
as proved below). -/
def Pin.modeT (pin : Nat) (regs : Regs) : Mode :=
  modeOfBits (Pin.modeBits pin regs)

/-- Method `Pin::set_mode` (src/src/gpio/pin.rs lines 34-44): read the GPFSEL
word, clear the pin's 3-bit field (`!(0b111 << shift)` in `u32` is
`(2 ^ 32 - 1) ^^^ (0b111 <<< shift)`), and write the target mode's bits. -/
def Pin.setMode (pin : Nat) (mode : Mode) (regs : Regs) : Regs × List Event :=
  let regAddr := GPIO_OFFSET_GPFSEL + pin / 10
  let shift := (pin % 10) * 3
  let v := memRead regs regAddr
  let w := (v &&& ((2 ^ 32 - 1) ^^^ (7 <<< shift))) ||| ((mode.bits &&& 7) <<< shift)
  (memWrite regs regAddr w, [Event.readReg regAddr v, Event.writeReg regAddr w])

/-- Guard state of `InputPin` (src/src/gpio/pin.rs lines 89-95): the mode
captured at creation, whether an async interrupt is registered, and the
`clear_on_drop` flag. -/
structure InputPinG where
  prevMode : Option Mode
  asyncLive : Bool
  clearOnDrop : Bool
deriving DecidableEq, Repr

/-- Guard state of `OutputPin` (src/src/gpio/pin.rs lines 236-242). -/
structure OutputPinG where
  mode : Mode
  prevMode : Option Mode
  clearOnDrop : Bool
deriving DecidableEq, Repr

/-- Constructor `InputPin::new` (src/src/gpio/pin.rs lines 98-109): read the
current mode; if it already is `Input` remember nothing, otherwise write
`Input` and remember the prior mode.  `clear_on_drop` starts `true` and no
async interrupt is registered. -/
def InputPin.new (pin : Nat) (regs : Regs) : InputPinG × Regs × List Event :=
  let prev := Pin.modeT pin regs
  let readTr := [Event.readReg (GPIO_OFFSET_GPFSEL + pin / 10)
    (memRead regs (GPIO_OFFSET_GPFSEL + pin / 10))]
  if prev = Mode.Input then
    (⟨none, false, true⟩, regs, readTr)
  else
    let (regs1, tr) := Pin.setMode pin Mode.Input regs
    (⟨some prev, false, true⟩, regs1, readTr ++ tr)

/-- Constructor `OutputPin::new` (src/src/gpio/pin.rs lines 245-256), used by
`as_output` (with `Mode::Output`) and `as_output_with_mode`. -/
def OutputPin.new (pin : Nat) (mode : Mode) (regs : Regs) :
    OutputPinG × Regs × List Event :=
  let prev := Pin.modeT pin regs
  let readTr := [Event.readReg (GPIO_OFFSET_GPFSEL + pin / 10)
    (memRead regs (GPIO_OFFSET_GPFSEL + pin / 10))]
  if prev = mode then
    (⟨mode, none, true⟩, regs, readTr)
  else
    let (regs1, tr) := Pin.setMode pin mode regs
    (⟨mode, some prev, true⟩, regs1, readTr ++ tr)

/-- Finalizer `Drop for InputPin` (src/src/gpio/pin.rs lines 222-234): first
force-disarm any registered async interrupt (`clear_async_interrupt`,
unconditional), then return early when `clear_on_drop == false`, else write
back the captured prior mode when one exists. -/
def InputPin.drop (g : InputPinG) (pin : Nat) (regs : Regs) : Regs × List Event :=
  let stopTr := if g.asyncLive then [Event.stopAsync pin] else []
  if g.clearOnDrop = false then (regs, stopTr)
  else
    match g.prevMode with
    | some m =>
      let (regs1, tr) := Pin.setMode pin m regs
      (regs1, stopTr ++ tr)
    | none => (regs, stopTr)

/-- Finalizer `Drop for OutputPin` (src/src/gpio/pin.rs lines 296-306):
return early when `clear_on_drop == false`, else restore the captured
prior mode when one exists. -/
def OutputPin.drop (g : OutputPinG) (pin : Nat) (regs : Regs) : Regs × List Event :=
  if g.clearOnDrop = false then (regs, [])
  else
    match g.prevMode with
    | some m => Pin.setMode pin m regs
    | none => (regs, [])

/-- Method `InputPin::read` (src/src/gpio/pin.rs lines 131-140): test bit
`pin % 32` of the level word `GPLEV + pin / 32`. -/
def InputPin.read (pin : Nat) (regs : Regs) : Level :=
  let regAddr := GPIO_OFFSET_GPLEV + pin / 32
  let regValue := memRead regs regAddr
  if 0 < regValue &&& (1 <<< (pin % 32)) then Level.High else Level.Low

/-- Method `OutputPin::write` (src/src/gpio/pin.rs lines 286-293): write
`1 << (pin % 32)` into the clear word (for `Low`) or the set word (for
`High`). -/
def OutputPin.write (pin : Nat) (level : Level) (regs : Regs) : Regs × List Event :=
  let regAddr := match level with
    | Level.Low => GPIO_OFFSET_GPCLR + pin / 32
    | Level.High => GPIO_OFFSET_GPSET + pin / 32
  (memWrite regs regAddr (1 <<< (pin % 32)), [Event.writeReg regAddr (1 <<< (pin % 32))])

/-- Method `OutputPin::set_low` (src/src/gpio/pin.rs lines 278-280). -/
def OutputPin.setLow (pin : Nat) (regs : Regs) : Regs × List Event :=
  OutputPin.write pin Level.Low regs

/-- Method `OutputPin::set_high` (src/src/gpio/pin.rs lines 282-284). -/
def OutputPin.setHigh (pin : Nat) (regs : Regs) : Regs × List Event :=
  OutputPin.write pin Level.High regs

/-- Lifecycle-relevant fields of `struct Gpio` (src/src/gpio.rs lines 249-257). -/
structure GpioSt where
  initialized : Bool
  clearOnDrop : Bool
deriving DecidableEq, Repr

/-- Process-wide state surrounding a `Gpio` handle: the `GPIO_INSTANCED`
singleton flag (src/src/gpio.rs line 97) and whether the register page is
mapped.  Modelled from the spec: `mem::GpioMem` (module `mem` is not in the
sources) — `open()` maps the page, `close()` unmaps it and is idempotent. -/
structure World where
  instanced : Bool
  memOpen : Bool
deriving DecidableEq, Repr

/-- Operation `GpioMem::close`.  Modelled from the spec: `mem::GpioMem::close`
unmaps and releases the handle, idempotently. -/
def memClose (w : World) : World := { w with memOpen := false }

/-- Method `Gpio::cleanup_internal` (src/src/gpio.rs lines 360-366): close the
register memory, set `initialized` to `false`, return `Ok(())`. -/
def Gpio.cleanupInternal (g : GpioSt) (w : World) :
    Except Error Unit × GpioSt × World :=
  (.ok (), { g with initialized := false }, memClose w)

/-- Finalizer `Drop for Gpio` (src/src/gpio.rs lines 534-544): run
`cleanup_internal` only when `clear_on_drop && initialized`, then store
`false` into `GPIO_INSTANCED` unconditionally. -/
def Gpio.drop (g : GpioSt) (w : World) : World :=
  let w1 := if g.clearOnDrop && g.initialized then (Gpio.cleanupInternal g w).2.2 else w
  { w1 with instanced := false }

/-- Method `Gpio::cleanup` (src/src/gpio.rs lines 356-358): calls
`cleanup_internal`, and because it consumes `self`, `Drop for Gpio` runs on
the updated handle before it returns. -/
def Gpio.cleanup (g : GpioSt) (w : World) : Except Error Unit × World :=
  let (r, g1, w1) := Gpio.cleanupInternal g w
  (r, Gpio.drop g1 w1)

/-- Constructor `Gpio::new` (src/src/gpio.rs lines 269-320): return
`InstanceExists` immediately when `GPIO_INSTANCED` is set; otherwise run
driver discovery and map the register page (the fallible steps are
abstracted by `ioOk` — on failure the error propagates before the flag is
touched), build the handle with `initialized = true` and
`clear_on_drop = true`, and finally set the singleton flag.  Sequential
semantics: the closing `compare_and_swap` cannot observe a concurrent set,
so the success path always claims the flag. -/
def Gpio.new (w : World) (ioOk : Bool) : Except Error GpioSt × World :=
  if w.instanced then (.error .InstanceExists, w)
  else if ioOk then (.ok ⟨true, true⟩, { instanced := true, memOpen := true })
  else (.error .Io, w)

/-- Interrupt-registration state of the handle: per pin, the synchronous
trigger registered with the event loop (`EventLoop`, module `interrupt` not
in the sources) and whether `async_interrupts[pin]` holds a live worker
(src/src/gpio.rs lines 255-256). -/
structure IntrSt where
  sync : Nat → Option Trigger
  asyncLive : Nat → Bool

/-- Operation `EventLoop::set_interrupt`.  Modelled from the spec (§4.4,
module `interrupt` is not in the sources): `Disabled` disarms the pin's
registration; any other trigger replaces the registration for the pin. -/
def EventLoop.setInterrupt (s : IntrSt) (pin : Nat) (trigger : Trigger) :
    IntrSt × List Event :=
  if trigger = Trigger.Disabled then
    ({ s with sync := fun p => if p = pin then none else s.sync p },
      [Event.disarmSync pin])
  else
    ({ s with sync := fun p => if p = pin then some trigger else s.sync p },
      [Event.armSync pin trigger])

/-- Operation `EventLoop::clear_interrupt`.  Modelled from the spec (§4.4):
disarm the pin's synchronous registration. -/
def EventLoop.clearInterrupt (s : IntrSt) (pin : Nat) : IntrSt × List Event :=
  ({ s with sync := fun p => if p = pin then none else s.sync p },
    [Event.disarmSync pin])

/-- Method `Gpio::clear_async_interrupt` (src/src/gpio.rs lines 522-531):
range check, then `take()` the worker slot (removing it even when the
subsequent `stop()` fails) and stop the worker; `stopOk` abstracts whether
the joined thread terminated normally (`ThreadPanic` otherwise). -/
def Gpio.clearAsyncInterrupt (s : IntrSt) (pin : Nat) (stopOk : Bool) :
    Except Error Unit × IntrSt × List Event :=
  if GPIO_MAX_PINS ≤ pin then (.error (.InvalidPin pin), s, [])
  else if s.asyncLive pin then
    let s1 := { s with asyncLive := fun p => if p = pin then false else s.asyncLive p }
    if stopOk then (.ok (), s1, [Event.stopAsync pin])
    else (.error .ThreadPanic, s1, [Event.stopAsync pin])
  else (.ok (), s, [])

/-- Method `Gpio::clear_interrupt` (src/src/gpio.rs lines 423-427): range
check, then `EventLoop::clear_interrupt`. -/
def Gpio.clearInterrupt (s : IntrSt) (pin : Nat) :
    Except Error Unit × IntrSt × List Event :=
  if GPIO_MAX_PINS ≤ pin then (.error (.InvalidPin pin), s, [])
  else
    let (s1, tr) := EventLoop.clearInterrupt s pin
    (.ok (), s1, tr)

/-- Method `Gpio::set_interrupt` (src/src/gpio.rs lines 412-420): range
check, clear any async interrupt on the pin (propagating its error), then
register the synchronous trigger with the event loop. -/
def Gpio.setInterrupt (s : IntrSt) (pin : Nat) (trigger : Trigger) (stopOk : Bool) :
    Except Error Unit × IntrSt × List Event :=
  if GPIO_MAX_PINS ≤ pin then (.error (.InvalidPin pin), s, [])
  else
    match Gpio.clearAsyncInterrupt s pin stopOk with
    | (.error e, s1, tr1) => (.error e, s1, tr1)
    | (.ok _, s1, tr1) =>
      let (s2, tr2) := EventLoop.setInterrupt s1 pin trigger
      (.ok (), s2, tr1 ++ tr2)

/-- Method `Gpio::set_async_interrupt` (src/src/gpio.rs lines 499-519):
range check, clear any synchronous registration, stop any prior async
worker, then install the new worker (`AsyncInterrupt::new`; its fallible
line-event arming is taken to succeed, which is the path the claim is
about). -/
def Gpio.setAsyncInterrupt (s : IntrSt) (pin : Nat) (trigger : Trigger) (stopOk : Bool) :
    Except Error Unit × IntrSt × List Event :=
  if GPIO_MAX_PINS ≤ pin then (.error (.InvalidPin pin), s, [])
  else
    match Gpio.clearInterrupt s pin with
    | (.error e, s1, tr1) => (.error e, s1, tr1)
    | (.ok _, s1, tr1) =>
      match Gpio.clearAsyncInterrupt s1 pin stopOk with
      | (.error e, s2, tr2) => (.error e, s2, tr1 ++ tr2)
      | (.ok _, s2, tr2) =>
        (.ok (),
          { s2 with asyncLive := fun p => if p = pin then true else s2.asyncLive p },
          tr1 ++ tr2 ++ [Event.armAsync pin trigger])

/-- Behaviour of `EventLoop::poll` (module `interrupt` is not in the
sources), abstracted as an arbitrary function of the requested pins, the
`reset` flag and the timeout (in nanoseconds). -/
def PollFn : Type := List Nat → Bool → Option Nat → Except Error (Option (Nat × Level))

/-- First pin of the slice failing the `assert_pin!` range check, if any. -/
def firstInvalidPin : List Nat → Option Nat
  | [] => none
  | p :: ps => if GPIO_MAX_PINS ≤ p then some p else firstInvalidPin ps

/-- Method `Gpio::poll_interrupts` (src/src/gpio.rs lines 477-488): range
check every requested pin before delegating to `EventLoop::poll`; the
returned `Bool` records whether the event loop was consulted. -/
def Gpio.pollInterrupts (ev : PollFn) (pins : List Nat) (reset : Bool)
    (timeout : Option Nat) : Except Error (Option (Nat × Level)) × Bool :=
  match firstInvalidPin pins with
  | some p => (.error (.InvalidPin p), false)
  | none => (ev pins reset timeout, true)

/-- Method `Gpio::poll_interrupt` (src/src/gpio.rs lines 443-456): delegate
to `poll_interrupts` on the single-pin slice and keep only the `Level`
component of the result. -/
def Gpio.pollInterrupt (ev : PollFn) (pin : Nat) (reset : Bool)
    (timeout : Option Nat) : Except Error (Option Level) × Bool :=
  let (r, polled) := Gpio.pollInterrupts ev [pin] reset timeout
  match r with
  | .ok (some t) => (.ok (some t.2), polled)
  | .ok none => (.ok none, polled)
  | .error e => (.error e, polled)

/-- Method `InputPin::poll_interrupt` (src/src/gpio/pin.rs lines 177-185):
call `EventLoop::poll` directly on the guard's own pin and keep only the
`Level` component. -/
def InputPin.pollInterrupt (ev : PollFn) (pin : Nat) (reset : Bool)
    (timeout : Option Nat) : Except Error (Option Level) :=
  match ev [pin] reset timeout with
  | .ok (some t) => .ok (some t.2)
  | .ok none => .ok none
  | .error e => .error e

/-- Concrete register page with every word zero, for instantiations. -/
def regsZero : Regs := fun _ => 0

/-- Concrete interrupt state with nothing armed, for instantiations. -/
def intrNone : IntrSt := ⟨fun _ => none, fun _ => false⟩

/-- Concrete event-loop poll behaviour that always times out, for instantiations. -/
def pollNone : PollFn := fun _ _ _ => .ok none

/-- Concrete interrupt state with a live async worker on pin 7, for instantiations. -/
def intrAsync7 : IntrSt := ⟨fun _ => none, fun p => p == 7⟩

/-! Claims C1 and C2: top-level lifecycle. -/

/-- Claim C1 counterexample: with `clear_on_drop = false` on an initialized
handle, `Drop for Gpio` skips `cleanup_internal`, so the register memory is
NOT closed after teardown — refuting the claim that resource release happens
for every value of the `clear_on_drop` flag. -/
theorem c1_drop_leaves_mem_open :
    ¬ ((Gpio.drop ⟨true, false⟩ ⟨true, true⟩).memOpen = false) := by
  decide

/-- Claim C1 (amended): teardown releases the singleton flag unconditionally,
and explicit `cleanup()` closes the register memory unconditionally; but
`Drop` closes the register memory only when `clear_on_drop` and
`initialized` are both true. -/
theorem c1_teardown_release (g : GpioSt) (w : World) :
    (Gpio.drop g w).instanced = false ∧
    (Gpio.cleanup g w).2.instanced = false ∧
    (Gpio.cleanup g w).2.memOpen = false ∧
    ((Gpio.drop g w).memOpen = false ↔
      (g.clearOnDrop = true ∧ g.initialized = true) ∨ w.memOpen = false) := by
  obtain ⟨gi, gc⟩ := g
  obtain ⟨wi, wm⟩ := w
  cases gi <;> cases gc <;> cases wi <;> cases wm <;> decide

/-- Claim C2: constructing a `Gpio` while the singleton flag is set fails
with `InstanceExists` and changes nothing; after teardown of a live handle
(by `Drop` or by `cleanup()`), a subsequent construction succeeds and claims
the flag again. -/
theorem c2_singleton (w : World) (g : GpioSt) (ioOk : Bool) :
    Gpio.new { w with instanced := true } ioOk =
      (.error .InstanceExists, { w with instanced := true }) ∧
    (Gpio.new (Gpio.drop g w) true).1 = .ok ⟨true, true⟩ ∧
    (Gpio.new (Gpio.drop g w) true).2.instanced = true ∧
    (Gpio.new (Gpio.cleanup g w).2 true).1 = .ok ⟨true, true⟩ := by
  obtain ⟨gi, gc⟩ := g
  obtain ⟨wi, wm⟩ := w
  cases ioOk <;> cases gi <;> cases gc <;> cases wi <;> cases wm <;>
    exact ⟨rfl, rfl, rfl, rfl⟩

/-! Claim C10: mode decoding is total. -/

/-- Claim C10: the mode field read by `Pin::mode` is masked to 3 bits, so it
is always below 8, and the `u8 → Mode` conversion never reaches its
`unreachable!()` arm: for every register content the fallible decode
returns `some` of the total decode, and no `UnknownMode` error can arise. -/
theorem c10_mode_total (pin : Nat) (regs : Regs) :
    Pin.modeBits pin regs < 8 ∧
    Pin.modeOpt pin regs = some (Pin.modeT pin regs) := by
  have h : Pin.modeBits pin regs < 8 := by
    have h2 : (memRead regs (GPIO_OFFSET_GPFSEL + pin / 10) >>> ((pin % 10) * 3)) &&& 7
        < 2 ^ 3 := Nat.and_lt_two_pow _ (by norm_num)
    simpa [Pin.modeBits] using h2
  refine ⟨h, ?_⟩
  unfold Pin.modeOpt Pin.modeT
  set b := Pin.modeBits pin regs with hb
  interval_cases b <;> rfl

/-! Claim C6: InputPin teardown disarms async interrupts first. -/

/-- Claim C6: on `InputPin` scope exit, a registered async interrupt is
stopped unconditionally — for both values of `clear_on_drop` — and the stop
event precedes the whole (possibly empty) mode-restoration suffix of the
trace. -/
theorem c6_input_drop_disarms_async (g : InputPinG) (pin : Nat) (regs : Regs)
    (h : g.asyncLive = true) :
    (InputPin.drop g pin regs).2 =
      Event.stopAsync pin ::
        (if g.clearOnDrop = true then
          (match g.prevMode with
           | some m => (Pin.setMode pin m regs).2
           | none => [])
         else []) := by
  cases hcod : g.clearOnDrop <;> cases hpm : g.prevMode <;>
    simp [InputPin.drop, h, hcod, hpm]

/-- Claim C6 instantiated: a guard holding an async interrupt with
restoration suppressed still emits the stop event on exit. -/
theorem c6_input_drop_disarms_async_w :
    (InputPin.drop ⟨some Mode.Output, true, false⟩ 3 regsZero).2 =
      Event.stopAsync 3 ::
        (if (false : Bool) = true then
          (match some Mode.Output with
           | some m => (Pin.setMode 3 m regsZero).2
           | none => [])
         else []) :=
  c6_input_drop_disarms_async ⟨some Mode.Output, true, false⟩ 3 regsZero rfl

/-! Claim C9: single-pin poll refines multi-pin poll. -/

/-- Claim C9: `Gpio::poll_interrupt(pin, reset, timeout)` returns exactly the
`Level` component of `Gpio::poll_interrupts(&[pin], reset, timeout)` —
`Ok(Some(level))` iff the multi-pin call returns `Ok(Some((q, level)))` for
some pin `q`, `Ok(None)` iff it returns `Ok(None)`, and the same error
otherwise — and for a valid pin `InputPin::poll_interrupt` agrees with both. -/
theorem c9_poll_refinement (ev : PollFn) (pin : Nat) (reset : Bool)
    (t : Option Nat) (h : pin < GPIO_MAX_PINS) :
    (Gpio.pollInterrupt ev pin reset t).1 =
      Except.map (Option.map Prod.snd) (Gpio.pollInterrupts ev [pin] reset t).1 ∧
    (∀ l, (Gpio.pollInterrupt ev pin reset t).1 = .ok (some l) ↔
      ∃ q, (Gpio.pollInterrupts ev [pin] reset t).1 = .ok (some (q, l))) ∧
    ((Gpio.pollInterrupt ev pin reset t).1 = .ok none ↔
      (Gpio.pollInterrupts ev [pin] reset t).1 = .ok none) ∧
    (∀ e, (Gpio.pollInterrupt ev pin reset t).1 = .error e ↔
      (Gpio.pollInterrupts ev [pin] reset t).1 = .error e) ∧
    InputPin.pollInterrupt ev pin reset t = (Gpio.pollInterrupt ev pin reset t).1 := by
  have hinv : firstInvalidPin [pin] = none := by
    simp [firstInvalidPin, Nat.not_le_of_lt h]
  rcases hev : ev [pin] reset t with e | r
  · refine ⟨?_, ?_, ?_, ?_, ?_⟩ <;>
      simp [Gpio.pollInterrupt, Gpio.pollInterrupts, InputPin.pollInterrupt,
        hinv, hev, Except.map]
  · rcases r with _ | ⟨q, l⟩ <;>
      refine ⟨?_, ?_, ?_, ?_, ?_⟩ <;>
        simp [Gpio.pollInterrupt, Gpio.pollInterrupts, InputPin.pollInterrupt,
          hinv, hev, Except.map]

/-- Claim C9 instantiated at pin 4 with the always-timeout event loop. -/
theorem c9_poll_refinement_w :
    (Gpio.pollInterrupt pollNone 4 true none).1 =
      Except.map (Option.map Prod.snd) (Gpio.pollInterrupts pollNone [4] true none).1 ∧
    (∀ l, (Gpio.pollInterrupt pollNone 4 true none).1 = .ok (some l) ↔
      ∃ q, (Gpio.pollInterrupts pollNone [4] true none).1 = .ok (some (q, l))) ∧
    ((Gpio.pollInterrupt pollNone 4 true none).1 = .ok none ↔
      (Gpio.pollInterrupts pollNone [4] true none).1 = .ok none) ∧
    (∀ e, (Gpio.pollInterrupt pollNone 4 true none).1 = .error e ↔
      (Gpio.pollInterrupts pollNone [4] true none).1 = .error e) ∧
    InputPin.pollInterrupt pollNone 4 true none = (Gpio.pollInterrupt pollNone 4 true none).1 :=
  c9_poll_refinement pollNone 4 true none (by decide)

/-! Claim C7: eager pin-range checking. -/

/-- Helper for the poll range check: a slice containing an out-of-range pin
makes `firstInvalidPin` report an out-of-range pin. -/
theorem firstInvalidPin_of_mem {pins : List Nat} {pin : Nat}
    (hmem : pin ∈ pins) (h : GPIO_MAX_PINS ≤ pin) :
    ∃ q, firstInvalidPin pins = some q ∧ GPIO_MAX_PINS ≤ q := by
  induction pins with
  | nil => cases hmem
  | cons p ps ih =>
    by_cases hp : GPIO_MAX_PINS ≤ p
    · exact ⟨p, by simp [firstInvalidPin, hp], hp⟩
    · rcases List.mem_cons.mp hmem with rfl | hmem2
      · exact absurd h hp
      · rcases ih hmem2 with ⟨q, hq1, hq2⟩
        exact ⟨q, by simp [firstInvalidPin, hp, hq1], hq2⟩

/-- Claim C7: for every pin index at or above `GPIO_MAX_PINS` (54), each of
`set_pullupdown`, `set_interrupt`, `clear_interrupt`, `set_async_interrupt`
and `clear_async_interrupt` returns `InvalidPin` with the state untouched
and an empty hardware trace, and `poll_interrupts` on a slice containing an
out-of-range pin returns `InvalidPin` without consulting the event loop. -/
theorem c7_invalid_pin_checked (pin : Nat) (h : GPIO_MAX_PINS ≤ pin)
    (pud : PullUpDown) (regs : Regs) (s : IntrSt) (trigger : Trigger)
    (stopOk : Bool) (ev : PollFn) (pins : List Nat) (reset : Bool)
    (t : Option Nat) (hmem : pin ∈ pins) :
    Gpio.setPullupdown pin pud regs = (.error (.InvalidPin pin), regs, []) ∧
    Gpio.setInterrupt s pin trigger stopOk = (.error (.InvalidPin pin), s, []) ∧
    Gpio.clearInterrupt s pin = (.error (.InvalidPin pin), s, []) ∧
    Gpio.setAsyncInterrupt s pin trigger stopOk = (.error (.InvalidPin pin), s, []) ∧
    Gpio.clearAsyncInterrupt s pin stopOk = (.error (.InvalidPin pin), s, []) ∧
    (Gpio.pollInterrupts ev pins reset t).2 = false ∧
    (∃ q, GPIO_MAX_PINS ≤ q ∧
      (Gpio.pollInterrupts ev pins reset t).1 = .error (.InvalidPin q)) := by
  rcases firstInvalidPin_of_mem hmem h with ⟨q, hq1, hq2⟩
  refine ⟨?_, ?_, ?_, ?_, ?_, ?_, ⟨q, hq2, ?_⟩⟩ <;>
    simp [Gpio.setPullupdown, Gpio.setInterrupt, Gpio.clearInterrupt,
      Gpio.setAsyncInterrupt, Gpio.clearAsyncInterrupt, Gpio.pollInterrupts,
      h, hq1]

/-- Claim C7 instantiated at pin 54, the smallest invalid index. -/
theorem c7_invalid_pin_checked_w :
    Gpio.setPullupdown 54 PullUpDown.Off regsZero =
      (.error (.InvalidPin 54), regsZero, []) ∧
    Gpio.setInterrupt intrNone 54 Trigger.Both true =
      (.error (.InvalidPin 54), intrNone, []) ∧
    Gpio.clearInterrupt intrNone 54 = (.error (.InvalidPin 54), intrNone, []) ∧
    Gpio.setAsyncInterrupt intrNone 54 Trigger.Both true =
      (.error (.InvalidPin 54), intrNone, []) ∧
    Gpio.clearAsyncInterrupt intrNone 54 true =
      (.error (.InvalidPin 54), intrNone, []) ∧
    (Gpio.pollInterrupts pollNone [54] false none).2 = false ∧
    (∃ q, GPIO_MAX_PINS ≤ q ∧
      (Gpio.pollInterrupts pollNone [54] false none).1 = .error (.InvalidPin q)) :=
  c7_invalid_pin_checked 54 (by decide) PullUpDown.Off regsZero intrNone
    Trigger.Both true pollNone [54] false none (by decide)

/-! Claim C4: the pull-up/down register sequence. -/

/-- Claim C4: for every valid pin and pull state, `set_pullupdown` performs,
in order: a write of the 2-bit control code into GPPUD that leaves bits
2..31 of that register unchanged; a sleep of 20000 ns (20 µs); a write of
exactly the single bit `1 << (pin % 32)` into `GPPUDCLK + pin / 32`;
another 20000 ns sleep; then a write clearing the control code in GPPUD and
a write of zero to the clock register.  Every sleep in the trace is at
least 20000 ns. -/
theorem c4_set_pullupdown_sequence (pin : Nat) (pud : PullUpDown) (regs : Regs)
    (h : pin < GPIO_MAX_PINS) :
    (Gpio.setPullupdown pin pud regs).1 = .ok () ∧
    (Gpio.setPullupdown pin pud regs).2.2 =
      [Event.readReg GPIO_OFFSET_GPPUD (regs GPIO_OFFSET_GPPUD),
       Event.writeReg GPIO_OFFSET_GPPUD
         ((regs GPIO_OFFSET_GPPUD &&& (2 ^ 32 - 4)) ||| (pud.bits &&& 3)),
       Event.sleepNs 20000,
       Event.writeReg (GPIO_OFFSET_GPPUDCLK + pin / 32) (1 <<< (pin % 32)),
       Event.sleepNs 20000,
       Event.readReg GPIO_OFFSET_GPPUD
         ((regs GPIO_OFFSET_GPPUD &&& (2 ^ 32 - 4)) ||| (pud.bits &&& 3)),
       Event.writeReg GPIO_OFFSET_GPPUD
         (((regs GPIO_OFFSET_GPPUD &&& (2 ^ 32 - 4)) ||| (pud.bits &&& 3)) &&& (2 ^ 32 - 4)),
       Event.writeReg (GPIO_OFFSET_GPPUDCLK + pin / 32) (0 <<< (pin % 32))] ∧
    (∀ k, 2 ≤ k → k < 32 →
      ((regs GPIO_OFFSET_GPPUD &&& (2 ^ 32 - 4)) ||| (pud.bits &&& 3)).testBit k
        = (regs GPIO_OFFSET_GPPUD).testBit k) ∧
    (∀ n, Event.sleepNs n ∈ (Gpio.setPullupdown pin pud regs).2.2 → 20000 ≤ n) ∧
    (∀ j, (1 <<< (pin % 32)).testBit j = true ↔ j = pin % 32) ∧
    (0 <<< (pin % 32)) = 0 := by
  have hne : ¬ (GPIO_OFFSET_GPPUD = GPIO_OFFSET_GPPUDCLK + pin / 32) := by
    simp [GPIO_OFFSET_GPPUD, GPIO_OFFSET_GPPUDCLK]
    omega
  have hle : ¬ (GPIO_MAX_PINS ≤ pin) := Nat.not_le_of_lt h
  have hok : (Gpio.setPullupdown pin pud regs).1 = .ok () := by
    simp [Gpio.setPullupdown, pudSequence, hle]
  have htr : (Gpio.setPullupdown pin pud regs).2.2 =
      [Event.readReg GPIO_OFFSET_GPPUD (regs GPIO_OFFSET_GPPUD),
       Event.writeReg GPIO_OFFSET_GPPUD
         ((regs GPIO_OFFSET_GPPUD &&& (2 ^ 32 - 4)) ||| (pud.bits &&& 3)),
       Event.sleepNs 20000,
       Event.writeReg (GPIO_OFFSET_GPPUDCLK + pin / 32) (1 <<< (pin % 32)),
       Event.sleepNs 20000,
       Event.readReg GPIO_OFFSET_GPPUD
         ((regs GPIO_OFFSET_GPPUD &&& (2 ^ 32 - 4)) ||| (pud.bits &&& 3)),
       Event.writeReg GPIO_OFFSET_GPPUD
         (((regs GPIO_OFFSET_GPPUD &&& (2 ^ 32 - 4)) ||| (pud.bits &&& 3)) &&& (2 ^ 32 - 4)),
       Event.writeReg (GPIO_OFFSET_GPPUDCLK + pin / 32) (0 <<< (pin % 32))] := by
    simp [Gpio.setPullupdown, pudSequence, memRead, memWrite, hle, hne]
  refine ⟨hok, htr, ?_, ?_, ?_, ?_⟩
  · intro k hk2 hk32
    have hc : (pud.bits &&& 3) < 2 ^ k := by
      have h1 : (pud.bits &&& 3) < 2 ^ 2 := Nat.and_lt_two_pow _ (by norm_num)
      exact lt_of_lt_of_le h1 (Nat.pow_le_pow_right (by norm_num) hk2)
    have hcb := Nat.testBit_lt_two_pow hc
    have h4 : (2 ^ 32 - 4 : Nat) = (2 ^ 32 - 1) ^^^ 3 := by decide
    have h3 : (3 : Nat) = 2 ^ 2 - 1 := by norm_num
    have hk2n : ¬ (k < 2) := by omega
    rw [Nat.testBit_or, Nat.testBit_and, hcb, h4, Nat.testBit_xor, h3,
      Nat.testBit_two_pow_sub_one, Nat.testBit_two_pow_sub_one]
    simp [hk32, hk2n]
  · intro n hn
    rw [htr] at hn
    simp only [List.mem_cons, List.not_mem_nil, or_false] at hn
    rcases hn with hn | hn | hn | hn | hn | hn | hn | hn <;>
      first
        | (injection hn with hn1; omega)
        | exact absurd hn (by simp)
  · intro j
    rw [Nat.shiftLeft_eq, one_mul, Nat.testBit_two_pow]
    simp [eq_comm]
  · exact Nat.zero_shiftLeft _

/-- Claim C4 instantiated at pin 0 with `PullUp` on the all-zero register page. -/
theorem c4_set_pullupdown_sequence_w :
    (Gpio.setPullupdown 0 PullUpDown.PullUp regsZero).1 = .ok () ∧
    (Gpio.setPullupdown 0 PullUpDown.PullUp regsZero).2.2 =
      [Event.readReg GPIO_OFFSET_GPPUD (regsZero GPIO_OFFSET_GPPUD),
       Event.writeReg GPIO_OFFSET_GPPUD
         ((regsZero GPIO_OFFSET_GPPUD &&& (2 ^ 32 - 4)) ||| (PullUpDown.PullUp.bits &&& 3)),
       Event.sleepNs 20000,
       Event.writeReg (GPIO_OFFSET_GPPUDCLK + 0 / 32) (1 <<< (0 % 32)),
       Event.sleepNs 20000,
       Event.readReg GPIO_OFFSET_GPPUD
         ((regsZero GPIO_OFFSET_GPPUD &&& (2 ^ 32 - 4)) ||| (PullUpDown.PullUp.bits &&& 3)),
       Event.writeReg GPIO_OFFSET_GPPUD
         (((regsZero GPIO_OFFSET_GPPUD &&& (2 ^ 32 - 4)) ||| (PullUpDown.PullUp.bits &&& 3)) &&& (2 ^ 32 - 4)),
       Event.writeReg (GPIO_OFFSET_GPPUDCLK + 0 / 32) (0 <<< (0 % 32))] ∧
    (∀ k, 2 ≤ k → k < 32 →
      ((regsZero GPIO_OFFSET_GPPUD &&& (2 ^ 32 - 4)) ||| (PullUpDown.PullUp.bits &&& 3)).testBit k
        = (regsZero GPIO_OFFSET_GPPUD).testBit k) ∧
    (∀ n, Event.sleepNs n ∈ (Gpio.setPullupdown 0 PullUpDown.PullUp regsZero).2.2 → 20000 ≤ n) ∧
    (∀ j, (1 <<< (0 % 32)).testBit j = true ↔ j = 0 % 32) ∧
    (0 <<< (0 % 32)) = 0 :=
  c4_set_pullupdown_sequence 0 PullUpDown.PullUp regsZero (by decide)

/-! Claim C8: level read and set/clear writes. -/

/-- Claim C8: for every valid pin `p`, `InputPin::read` returns `High` iff
bit `p % 32` of the level word `GPLEV + p / 32` is set (and `Low` iff it is
clear); `OutputPin::write(High)` writes exactly bit `p % 32` into the set
word `GPSET + p / 32`, `write(Low)` writes it into the clear word
`GPCLR + p / 32`, and `set_high`/`set_low` equal `write(High)`/`write(Low)`. -/
theorem c8_read_write_bits (pin : Nat) (regs : Regs) (h : pin < GPIO_MAX_PINS) :
    (InputPin.read pin regs = Level.High ↔
      (regs (GPIO_OFFSET_GPLEV + pin / 32)).testBit (pin % 32) = true) ∧
    (InputPin.read pin regs = Level.Low ↔
      (regs (GPIO_OFFSET_GPLEV + pin / 32)).testBit (pin % 32) = false) ∧
    OutputPin.write pin Level.High regs =
      (memWrite regs (GPIO_OFFSET_GPSET + pin / 32) (1 <<< (pin % 32)),
        [Event.writeReg (GPIO_OFFSET_GPSET + pin / 32) (1 <<< (pin % 32))]) ∧
    OutputPin.write pin Level.Low regs =
      (memWrite regs (GPIO_OFFSET_GPCLR + pin / 32) (1 <<< (pin % 32)),
        [Event.writeReg (GPIO_OFFSET_GPCLR + pin / 32) (1 <<< (pin % 32))]) ∧
    (∀ j, (1 <<< (pin % 32)).testBit j = true ↔ j = pin % 32) ∧
    OutputPin.setHigh pin regs = OutputPin.write pin Level.High regs ∧
    OutputPin.setLow pin regs = OutputPin.write pin Level.Low regs := by
  have hand : regs (GPIO_OFFSET_GPLEV + pin / 32) &&& (1 <<< (pin % 32)) =
      ((regs (GPIO_OFFSET_GPLEV + pin / 32)).testBit (pin % 32)).toNat * 2 ^ (pin % 32) := by
    rw [Nat.shiftLeft_eq, one_mul]
    exact Nat.and_two_pow _ _
  have hread : ∀ b : Bool,
      (regs (GPIO_OFFSET_GPLEV + pin / 32)).testBit (pin % 32) = b →
      InputPin.read pin regs = (if b then Level.High else Level.Low) := by
    intro b hb
    simp only [InputPin.read, memRead, hand, hb]
    cases b <;> simp [Nat.two_pow_pos]
  refine ⟨?_, ?_, rfl, rfl, ?_, rfl, rfl⟩
  · cases hb : (regs (GPIO_OFFSET_GPLEV + pin / 32)).testBit (pin % 32) <;>
      rw [hread _ hb] <;> simp
  · cases hb : (regs (GPIO_OFFSET_GPLEV + pin / 32)).testBit (pin % 32) <;>
      rw [hread _ hb] <;> simp
  · intro j
    rw [Nat.shiftLeft_eq, one_mul, Nat.testBit_two_pow]
    simp [eq_comm]

/-- Claim C8 instantiated at pin 33 on the all-zero register page. -/
theorem c8_read_write_bits_w :
    (InputPin.read 33 regsZero = Level.High ↔
      (regsZero (GPIO_OFFSET_GPLEV + 33 / 32)).testBit (33 % 32) = true) ∧
    (InputPin.read 33 regsZero = Level.Low ↔
      (regsZero (GPIO_OFFSET_GPLEV + 33 / 32)).testBit (33 % 32) = false) ∧
    OutputPin.write 33 Level.High regsZero =
      (memWrite regsZero (GPIO_OFFSET_GPSET + 33 / 32) (1 <<< (33 % 32)),
        [Event.writeReg (GPIO_OFFSET_GPSET + 33 / 32) (1 <<< (33 % 32))]) ∧
    OutputPin.write 33 Level.Low regsZero =
      (memWrite regsZero (GPIO_OFFSET_GPCLR + 33 / 32) (1 <<< (33 % 32)),
        [Event.writeReg (GPIO_OFFSET_GPCLR + 33 / 32) (1 <<< (33 % 32))]) ∧
    (∀ j, (1 <<< (33 % 32)).testBit j = true ↔ j = 33 % 32) ∧
    OutputPin.setHigh 33 regsZero = OutputPin.write 33 Level.High regsZero ∧
    OutputPin.setLow 33 regsZero = OutputPin.write 33 Level.Low regsZero :=
  c8_read_write_bits 33 regsZero (by decide)

/-! Claim C5: mode-preserving scoped guards. -/

/-- Mode discriminants are 3-bit values. -/
theorem Mode.bits_lt (m : Mode) : m.bits < 8 := by
  cases m <;> simp [Mode.bits]

/-- Total decode is a left inverse of the discriminant. -/
theorem modeOfBits_bits (m : Mode) : modeOfBits m.bits = m := by
  cases m <;> rfl

/-- Bits of the constant 7 = `0b111`. -/
theorem testBit_seven (j : Nat) : Nat.testBit 7 j = decide (j < 3) := by
  have h73 : (7 : Nat) = 2 ^ 3 - 1 := by norm_num
  rw [h73, Nat.testBit_two_pow_sub_one]

/-- Writing a mode with `Pin::set_mode` makes the subsequent `Pin::mode`
field read return exactly that mode's discriminant: the 3-bit field is
replaced and the read masks the same field back out. -/
theorem modeBits_setMode (pin : Nat) (m : Mode) (regs : Regs) :
    Pin.modeBits pin (Pin.setMode pin m regs).1 = m.bits := by
  have hs : (pin % 10) * 3 ≤ 27 := by
    have h10 : pin % 10 < 10 := Nat.mod_lt _ (by norm_num)
    omega
  have hb : m.bits < 8 := Mode.bits_lt m
  have hrw : Pin.modeBits pin (Pin.setMode pin m regs).1 =
      (((memRead regs (GPIO_OFFSET_GPFSEL + pin / 10)
          &&& ((2 ^ 32 - 1) ^^^ (7 <<< ((pin % 10) * 3))))
        ||| ((m.bits &&& 7) <<< ((pin % 10) * 3))) >>> ((pin % 10) * 3)) &&& 7 := by
    simp [Pin.modeBits, Pin.setMode, memRead, memWrite]
  rw [hrw]
  refine Nat.eq_of_testBit_eq fun i => ?_
  rw [Nat.testBit_and, Nat.testBit_shiftRight, testBit_seven]
  by_cases hi : i < 3
  · have hsub : (pin % 10) * 3 + i - (pin % 10) * 3 = i := by omega
    have hlt32 : (pin % 10) * 3 + i < 32 := by omega
    simp only [Nat.testBit_or, Nat.testBit_and, Nat.testBit_xor,
      Nat.testBit_shiftLeft, Nat.testBit_two_pow_sub_one, hsub, testBit_seven]
    simp [hi, hlt32, Nat.le_add_right]
  · have h8le : (8 : Nat) ≤ 2 ^ i := by
      calc (8 : Nat) = 2 ^ 3 := by norm_num
        _ ≤ 2 ^ i := Nat.pow_le_pow_right (by norm_num) (by omega)
    have hbit : m.bits.testBit i = false :=
      Nat.testBit_lt_two_pow (lt_of_lt_of_le hb h8le)
    simp [hi, hbit]

/-- Writing a mode with `Pin::set_mode` makes `Pin::mode` decode that mode. -/
theorem modeT_setMode (pin : Nat) (m : Mode) (regs : Regs) :
    Pin.modeT pin (Pin.setMode pin m regs).1 = m := by
  rw [Pin.modeT, modeBits_setMode, modeOfBits_bits]

/-- Claim C5: guard creation reads the current mode; if it differs from the
target it writes the target and records the prior mode, otherwise it records
nothing and leaves the registers untouched; at scope exit the recorded prior
mode is written back iff one was recorded and restoration was not suppressed
— otherwise the registers are untouched and no write event occurs — and the
restoring write makes the pin's mode decode to the recorded mode again. -/
theorem c5_guard_mode_capture_restore (pin : Nat) (regs : Regs) (mode : Mode)
    (gIn : InputPinG) (gOut : OutputPinG) :
    (Pin.modeT pin regs = mode →
      OutputPin.new pin mode regs = (⟨mode, none, true⟩, regs,
        [Event.readReg (GPIO_OFFSET_GPFSEL + pin / 10)
          (regs (GPIO_OFFSET_GPFSEL + pin / 10))])) ∧
    (Pin.modeT pin regs ≠ mode →
      OutputPin.new pin mode regs = (⟨mode, some (Pin.modeT pin regs), true⟩,
        (Pin.setMode pin mode regs).1,
        Event.readReg (GPIO_OFFSET_GPFSEL + pin / 10)
            (regs (GPIO_OFFSET_GPFSEL + pin / 10))
          :: (Pin.setMode pin mode regs).2) ∧
      Pin.modeT pin (OutputPin.new pin mode regs).2.1 = mode) ∧
    (Pin.modeT pin regs = Mode.Input →
      InputPin.new pin regs = (⟨none, false, true⟩, regs,
        [Event.readReg (GPIO_OFFSET_GPFSEL + pin / 10)
          (regs (GPIO_OFFSET_GPFSEL + pin / 10))])) ∧
    (Pin.modeT pin regs ≠ Mode.Input →
      InputPin.new pin regs = (⟨some (Pin.modeT pin regs), false, true⟩,
        (Pin.setMode pin Mode.Input regs).1,
        Event.readReg (GPIO_OFFSET_GPFSEL + pin / 10)
            (regs (GPIO_OFFSET_GPFSEL + pin / 10))
          :: (Pin.setMode pin Mode.Input regs).2) ∧
      Pin.modeT pin (InputPin.new pin regs).2.1 = Mode.Input) ∧
    (gOut.prevMode = none ∨ gOut.clearOnDrop = false →
      OutputPin.drop gOut pin regs = (regs, [])) ∧
    (∀ m, gOut.prevMode = some m → gOut.clearOnDrop = true →
      OutputPin.drop gOut pin regs = Pin.setMode pin m regs ∧
      Pin.modeT pin (OutputPin.drop gOut pin regs).1 = m) ∧
    (gIn.prevMode = none ∨ gIn.clearOnDrop = false →
      (InputPin.drop gIn pin regs).1 = regs ∧
      ∀ o v, Event.writeReg o v ∉ (InputPin.drop gIn pin regs).2) ∧
    (∀ m, gIn.prevMode = some m → gIn.clearOnDrop = true →
      (InputPin.drop gIn pin regs).1 = (Pin.setMode pin m regs).1 ∧
      Pin.modeT pin (InputPin.drop gIn pin regs).1 = m) := by
  refine ⟨?_, ?_, ?_, ?_, ?_, ?_, ?_, ?_⟩
  · intro hm
    simp [OutputPin.new, memRead, hm]
  · intro hm
    refine ⟨by simp [OutputPin.new, memRead, hm], ?_⟩
    have h2 : (OutputPin.new pin mode regs).2.1 = (Pin.setMode pin mode regs).1 := by
      simp [OutputPin.new, memRead, hm]
    rw [h2, modeT_setMode]
  · intro hm
    simp [InputPin.new, memRead, hm]
  · intro hm
    refine ⟨by simp [InputPin.new, memRead, hm], ?_⟩
    have h2 : (InputPin.new pin regs).2.1 = (Pin.setMode pin Mode.Input regs).1 := by
      simp [InputPin.new, memRead, hm]
    rw [h2, modeT_setMode]
  · rintro (hpm | hcod)
    · cases hcod2 : gOut.clearOnDrop <;> simp [OutputPin.drop, hpm, hcod2]
    · simp [OutputPin.drop, hcod]
  · intro m hpm hcod
    refine ⟨by simp [OutputPin.drop, hpm, hcod], ?_⟩
    have h2 : (OutputPin.drop gOut pin regs).1 = (Pin.setMode pin m regs).1 := by
      simp [OutputPin.drop, hpm, hcod]
    rw [h2, modeT_setMode]
  · rintro (hpm | hcod)
    · cases hcod2 : gIn.clearOnDrop <;> cases hal : gIn.asyncLive <;>
        simp [InputPin.drop, hpm, hcod2, hal]
    · cases hal : gIn.asyncLive <;> simp [InputPin.drop, hcod, hal]
  · intro m hpm hcod
    refine ⟨by simp [InputPin.drop, hpm, hcod], ?_⟩
    have h2 : (InputPin.drop gIn pin regs).1 = (Pin.setMode pin m regs).1 := by
      simp [InputPin.drop, hpm, hcod]
    rw [h2, modeT_setMode]

/-- Claim C5 instantiated at pin 2 on the all-zero page (current mode
`Input`): creating an output guard records `Input` and writes `Output`, and
dropping a guard that recorded `Alt1` with restoration enabled performs the
restoring mode write. -/
theorem c5_guard_mode_capture_restore_w :
    (Pin.modeT 2 regsZero ≠ Mode.Output) ∧
    (OutputPin.new 2 Mode.Output regsZero =
      (⟨Mode.Output, some (Pin.modeT 2 regsZero), true⟩,
        (Pin.setMode 2 Mode.Output regsZero).1,
        Event.readReg (GPIO_OFFSET_GPFSEL + 2 / 10)
            (regsZero (GPIO_OFFSET_GPFSEL + 2 / 10))
          :: (Pin.setMode 2 Mode.Output regsZero).2) ∧
      Pin.modeT 2 (OutputPin.new 2 Mode.Output regsZero).2.1 = Mode.Output) ∧
    (OutputPin.drop ⟨Mode.Output, some Mode.Alt1, true⟩ 2 regsZero =
        Pin.setMode 2 Mode.Alt1 regsZero ∧
      Pin.modeT 2 (OutputPin.drop ⟨Mode.Output, some Mode.Alt1, true⟩ 2 regsZero).1 =
        Mode.Alt1) :=
  ⟨by decide,
   (c5_guard_mode_capture_restore 2 regsZero Mode.Output
      ⟨some Mode.Alt2, false, true⟩ ⟨Mode.Output, some Mode.Alt1, true⟩).2.1 (by decide),
   (c5_guard_mode_capture_restore 2 regsZero Mode.Output
      ⟨some Mode.Alt2, false, true⟩ ⟨Mode.Output, some Mode.Alt1, true⟩).2.2.2.2.2.1
     Mode.Alt1 rfl rfl⟩

/-! Claim C3: sync/async interrupt exclusivity. -/

/-- Claim C3: for every valid pin, `set_interrupt` first tears down any live
async worker on the pin (the stop event precedes the sync arm/disarm event,
and the worker slot is empty afterwards on every path), and
`set_async_interrupt` first tears down the synchronous registration and any
prior async worker before arming the new one; after either call the pin has
at most one of the two registration kinds. -/
theorem c3_interrupt_exclusive (s : IntrSt) (pin : Nat) (trigger : Trigger)
    (stopOk : Bool) (h : pin < GPIO_MAX_PINS) :
    (Gpio.setInterrupt s pin trigger stopOk).2.1.asyncLive pin = false ∧
    ((Gpio.setInterrupt s pin trigger stopOk).1 = .ok () →
      (Gpio.setInterrupt s pin trigger stopOk).2.2 =
        (if s.asyncLive pin then [Event.stopAsync pin] else []) ++
        (if trigger = Trigger.Disabled then [Event.disarmSync pin]
         else [Event.armSync pin trigger]) ∧
      (Gpio.setInterrupt s pin trigger stopOk).2.1.sync pin =
        (if trigger = Trigger.Disabled then none else some trigger)) ∧
    ¬((Gpio.setInterrupt s pin trigger stopOk).2.1.sync pin ≠ none ∧
      (Gpio.setInterrupt s pin trigger stopOk).2.1.asyncLive pin = true) ∧
    (Gpio.setAsyncInterrupt s pin trigger stopOk).2.1.sync pin = none ∧
    ((Gpio.setAsyncInterrupt s pin trigger stopOk).1 = .ok () →
      (Gpio.setAsyncInterrupt s pin trigger stopOk).2.1.asyncLive pin = true ∧
      (Gpio.setAsyncInterrupt s pin trigger stopOk).2.2 =
        Event.disarmSync pin ::
          ((if s.asyncLive pin then [Event.stopAsync pin] else []) ++
            [Event.armAsync pin trigger])) ∧
    ¬((Gpio.setAsyncInterrupt s pin trigger stopOk).2.1.sync pin ≠ none ∧
      (Gpio.setAsyncInterrupt s pin trigger stopOk).2.1.asyncLive pin = true) := by
  have hlt : ¬ (GPIO_MAX_PINS ≤ pin) := Nat.not_le_of_lt h
  cases hal : s.asyncLive pin <;> cases stopOk <;>
    by_cases htr : trigger = Trigger.Disabled <;>
      refine ⟨?_, ?_, ?_, ?_, ?_, ?_⟩ <;>
        simp [Gpio.setInterrupt, Gpio.setAsyncInterrupt, Gpio.clearInterrupt,
          Gpio.clearAsyncInterrupt, EventLoop.setInterrupt, EventLoop.clearInterrupt,
          hlt, hal, htr]

/-- Claim C3 instantiated at pin 7 on a state with a live async worker:
arming a synchronous trigger stops the worker first, and arming a new async
trigger disarms the synchronous registration and stops the old worker
before the new arm. -/
theorem c3_interrupt_exclusive_w :
    (Gpio.setInterrupt intrAsync7 7 Trigger.Both true).2.1.asyncLive 7 = false ∧
    ((Gpio.setInterrupt intrAsync7 7 Trigger.Both true).2.2 =
      (if intrAsync7.asyncLive 7 then [Event.stopAsync 7] else []) ++
      (if (Trigger.Both = Trigger.Disabled) then [Event.disarmSync 7]
       else [Event.armSync 7 Trigger.Both]) ∧
      (Gpio.setInterrupt intrAsync7 7 Trigger.Both true).2.1.sync 7 =
        (if (Trigger.Both = Trigger.Disabled) then none else some Trigger.Both)) ∧
    ((Gpio.setAsyncInterrupt intrAsync7 7 Trigger.Both true).2.1.asyncLive 7 = true ∧
      (Gpio.setAsyncInterrupt intrAsync7 7 Trigger.Both true).2.2 =
        Event.disarmSync 7 ::
          ((if intrAsync7.asyncLive 7 then [Event.stopAsync 7] else []) ++
            [Event.armAsync 7 Trigger.Both])) :=
  ⟨(c3_interrupt_exclusive intrAsync7 7 Trigger.Both true (by decide)).1,
   (c3_interrupt_exclusive intrAsync7 7 Trigger.Both true (by decide)).2.1 rfl,
   (c3_interrupt_exclusive intrAsync7 7 Trigger.Both true (by decide)).2.2.2.2.1 rfl⟩

end Rppal
